import Mathlib

/-!
Verification development for the peer reachability and latency monitor
(`vendor/.../rafthttp/probing_status.go`) and the password-flag selection
logic (`cmd/geth/passwords.go`).

Durations are modelled as integer nanosecond counts, exactly as Go's
`time.Duration` (an `int64`); the values occurring here are tiny, so no
overflow reduction is needed.
-/

/-- Go's `time.Second`: one second expressed in nanoseconds. -/
def timeSecond : Int := 1000000000

/-- Modelled from the spec: `ConnReadTimeout`, the transport's read/connection
timeout.  Its defining constant lives in the transport package, outside the
provided sources; the spec describes it as the read timeout that the probe
sampling interval must stay strictly below (5 time units in the source tree). -/
def ConnReadTimeout : Int := 5 * timeSecond

/-- `proberInterval = ConnReadTimeout - time.Second` (probing_status.go line 27). -/
def proberInterval : Int := ConnReadTimeout - timeSecond

/-- `statusMonitoringInterval = 30 * time.Second` (probing_status.go line 28):
the steady polling interval. -/
def statusMonitoringInterval : Int := 30 * timeSecond

/-- `statusErrorInterval = 5 * time.Second` (probing_status.go line 29):
the fast polling interval. -/
def statusErrorInterval : Int := 5 * timeSecond

/-- Modelled from the spec: `ProbingPrefix`, the fixed, well-known
probe-endpoint suffix appended to every base address.  The constant itself is
declared elsewhere in the transport package (outside the provided sources);
the claims about it depend only on it being a fixed string. -/
def ProbingPrefix : String := "/raft/probing"

/-- Go's `time.Duration.Seconds()`: the duration converted to seconds.
Go returns a float64; we model the exact quotient as a rational. -/
def durationSeconds (d : Int) : ℚ := (d : ℚ) / 1000000000

/-- One snapshot of the `probing.Status` handle, as read in a monitor
iteration: the values of `s.Health()`, `s.SRTT()`, `s.Err()` and
`s.ClockDiff()` at that moment. -/
structure PeerStatus where
  health : Bool
  srtt : Int
  err : Option String
  clockDiff : Int
  deriving DecidableEq, Repr

/-- An observable emission of one monitor iteration.  The `driftWarn`
constructor records the structured log call of probing_status.go lines 76-82
field by field: `clockDriftField` is the value logged under the
`"clock-drift"` key — which the source fills with `s.SRTT()` — and
`rttField` is the value logged under the `"rtt"` key — which the source
fills with `s.ClockDiff()`. -/
inductive Event where
  | unhealthyWarn (peerId : String) (rtt : Int) (err : Option String)
  | driftWarn (peerId : String) (clockDriftField : Int) (rttField : Int) (err : Option String)
  | rttMetric (peerId : String) (seconds : ℚ)
  deriving DecidableEq

/-- The emissions of one `<-time.After(interval)` iteration of
`monitorProbingStatus` (probing_status.go lines 59-87), in source order:
an unhealthy warning when `!s.Health()`, a clock-drift warning when
`s.ClockDiff() > time.Second` (with the field contents of lines 79-80),
and the `rttSec` metric observation of line 87 on every iteration. -/
def iterEvents (id : String) (s : PeerStatus) : List Event :=
  (if !s.health then [Event.unhealthyWarn id s.srtt s.err] else [])
    ++ (if s.clockDiff > timeSecond then
          [Event.driftWarn id s.srtt s.clockDiff s.err] else [])
    ++ [Event.rttMetric id (durationSeconds s.srtt)]

/-- The `interval` value after one iteration (probing_status.go lines 59-73):
`statusErrorInterval` when unhealthy, `statusMonitoringInterval` when healthy. -/
def nextInterval (s : PeerStatus) : Int :=
  if !s.health then statusErrorInterval else statusMonitoringInterval

/-- Outcome of one `select` wait: either the timer fired and a status
snapshot is read, or `s.StopNotify()` delivered the stop signal (the stop
signal races the timer, so it is observable during the wait itself). -/
inductive WaitOutcome where
  | timeout (s : PeerStatus)
  | stop
  deriving DecidableEq

/-- One completed monitor iteration: the interval that was waited before it,
and the events it emitted. -/
structure Iteration where
  waited : Int
  events : List Event
  deriving DecidableEq

/-- The `for { select { ... } }` loop of `monitorProbingStatus`, driven by a
trace of wait outcomes.  A `stop` outcome returns from the loop at once
(line 90); a `timeout` outcome runs one iteration and loops with the updated
interval. -/
def monitorLoop (id : String) : Int → List WaitOutcome → List Iteration
  | _, [] => []
  | _, WaitOutcome.stop :: _ => []
  | interval, WaitOutcome.timeout s :: rest =>
      ⟨interval, iterEvents id s⟩ :: monitorLoop id (nextInterval s) rest

/-- `monitorProbingStatus` (probing_status.go lines 53-93): the loop starts
with `interval := statusErrorInterval` (line 55, "set the first interval
short to log error early"). -/
def monitorProbingStatus (id : String) (tr : List WaitOutcome) : List Iteration :=
  monitorLoop id statusErrorInterval tr

/-- A structured warning log entry: its message and the peer it is
attributed to via the `"remote-peer-id"` field. -/
structure WarnLog where
  msg : String
  peerId : String
  deriving DecidableEq

/-- The caller-observable effect of `addPeerToProber`: the URLs handed to
`p.AddHTTP`, the interval handed to `p.AddHTTP`, the warning logs written,
whether a monitor goroutine was spawned, and the value returned to the
caller.  The Go function declares no return values, so `returnedErr` is
`none` on every path. -/
structure RegResult where
  probeUrls : List String
  probeInterval : Int
  warnLogs : List WarnLog
  spawned : Bool
  returnedErr : Option String
  deriving DecidableEq

/-- `addPeerToProber` (probing_status.go lines 32-51).  `statusErr` is the
error result of `p.Status(id)`; whether that call fails is decided inside the
external probing library, so it enters the model as a parameter.  On failure
the function logs `"failed to add peer into prober"` with the peer id and
returns without spawning the monitor goroutine; on success it spawns
`monitorProbingStatus`. -/
def addPeerToProber (id : String) (us : List String) (statusErr : Option String) : RegResult :=
  let hus := us.map (fun u => u ++ ProbingPrefix)
  match statusErr with
  | some _ => ⟨hus, proberInterval, [⟨"failed to add peer into prober", id⟩], false, none⟩
  | none => ⟨hus, proberInterval, [], true, none⟩

/-- Recognizer for clock-drift warning events. -/
def isDriftWarn : Event → Bool
  | Event.driftWarn _ _ _ _ => true
  | _ => false

/-- Recognizer for RTT metric observations. -/
def isRttMetric : Event → Bool
  | Event.rttMetric _ _ => true
  | _ => false

/-- The number of drift warnings in one iteration is 1 exactly when the
signed `clockDiff` exceeds one second, else 0. -/
theorem countP_drift (id : String) (s : PeerStatus) :
    (iterEvents id s).countP isDriftWarn = if s.clockDiff > timeSecond then 1 else 0 := by
  unfold iterEvents
  rcases Bool.eq_false_or_eq_true s.health with hb | hb <;>
    by_cases hc : s.clockDiff > timeSecond <;>
      simp [hb, hc, isDriftWarn, List.countP_append, List.countP_cons]

/-- Helper: a trace segment with no stop outcome contributes one iteration
per timeout, whatever comes after a later stop. -/
theorem monitorLoop_append_stop (id : String) (post : List WaitOutcome) :
    ∀ (pre : List WaitOutcome) (interval : Int), WaitOutcome.stop ∉ pre →
      monitorLoop id interval (pre ++ WaitOutcome.stop :: post) =
        monitorLoop id interval pre := by
  intro pre
  induction pre with
  | nil => intro interval _; rfl
  | cons o pre ih =>
    intro interval h
    cases o with
    | stop => exact absurd (List.mem_cons_self _ _) h
    | timeout s =>
      have h2 : WaitOutcome.stop ∉ pre := fun hm => h (List.mem_cons_of_mem _ hm)
      simp only [List.cons_append, monitorLoop]
      exact congrArg _ (ih (nextInterval s) h2)

/-- Helper: without a stop outcome the loop never exits on its own — every
wait outcome yields an iteration. -/
theorem monitorLoop_length_of_no_stop (id : String) :
    ∀ (tr : List WaitOutcome) (interval : Int), WaitOutcome.stop ∉ tr →
      (monitorLoop id interval tr).length = tr.length := by
  intro tr
  induction tr with
  | nil => intro interval _; rfl
  | cons o tr ih =>
    intro interval h
    cases o with
    | stop => exact absurd (List.mem_cons_self _ _) h
    | timeout s =>
      have h2 : WaitOutcome.stop ∉ tr := fun hm => h (List.mem_cons_of_mem _ hm)
      simp only [monitorLoop, List.length_cons, ih (nextInterval s) h2]

/-- C1 counterexample: a snapshot whose `clockDiff` is minus two seconds has
absolute skew above one second, yet the iteration emits zero clock-drift
warnings, because the source compares the signed value (`s.ClockDiff() >
time.Second`, line 74), not its absolute value. -/
theorem clockDrift_negative_no_warning :
    (-(2 * timeSecond) : Int) < -timeSecond ∧
    (iterEvents "p1" ⟨true, 10000000, none, -(2 * timeSecond)⟩).countP isDriftWarn = 0 := by
  refine ⟨by norm_num [timeSecond], ?_⟩
  rw [countP_drift]
  norm_num [timeSecond]

/-- C1 (amended): in every monitor iteration whose snapshot has
`clockDiff > timeSecond` — a signed comparison — exactly one clock-drift
warning is emitted, independent of the `health` value; when
`clockDiff ≤ timeSecond` (including any negative skew) none is emitted. -/
theorem clockDrift_warning_signed (id : String) (s : PeerStatus) :
    (s.clockDiff > timeSecond → (iterEvents id s).countP isDriftWarn = 1) ∧
    (s.clockDiff ≤ timeSecond → (iterEvents id s).countP isDriftWarn = 0) ∧
    (iterEvents id ⟨true, s.srtt, s.err, s.clockDiff⟩).countP isDriftWarn =
      (iterEvents id ⟨false, s.srtt, s.err, s.clockDiff⟩).countP isDriftWarn := by
  refine ⟨fun h => ?_, fun h => ?_, ?_⟩
  · rw [countP_drift]; exact if_pos h
  · rw [countP_drift]; exact if_neg (not_lt.mpr h)
  · rw [countP_drift, countP_drift]

/-- C1 witness: a snapshot with two seconds of positive skew yields exactly
one drift warning; one with zero skew yields none. -/
theorem clockDrift_warning_signed_witness :
    ((2 * timeSecond : Int) > timeSecond ∧
      (iterEvents "p1" ⟨true, 5, none, 2 * timeSecond⟩).countP isDriftWarn = 1) ∧
    ((0 : Int) ≤ timeSecond ∧
      (iterEvents "p1" ⟨true, 5, none, 0⟩).countP isDriftWarn = 0) :=
  ⟨⟨by norm_num [timeSecond],
    (clockDrift_warning_signed "p1" ⟨true, 5, none, 2 * timeSecond⟩).1
      (by norm_num [timeSecond])⟩,
   ⟨by norm_num [timeSecond],
    (clockDrift_warning_signed "p1" ⟨true, 5, none, 0⟩).2.1
      (by norm_num [timeSecond])⟩⟩

/-- C2: after an iteration that read snapshot `s`, the interval waited before
the following iteration is `statusMonitoringInterval` when `s` was healthy
and `statusErrorInterval` when it was not — never any other value. -/
theorem monitor_next_wait (id : String) (interval : Int) (s s2 : PeerStatus)
    (rest : List WaitOutcome) :
    (monitorLoop id interval
        (WaitOutcome.timeout s :: WaitOutcome.timeout s2 :: rest)).get? 1 =
      some ⟨(if s.health then statusMonitoringInterval else statusErrorInterval),
            iterEvents id s2⟩ := by
  rcases Bool.eq_false_or_eq_true s.health with hb | hb <;>
    simp [monitorLoop, nextInterval, hb]

/-- C3: whatever the first snapshot says about the peer's health, the very
first iteration of `monitorProbingStatus` waits `statusErrorInterval`, the
fast interval (strictly shorter than `statusMonitoringInterval`). -/
theorem monitor_first_wait (id : String) (s : PeerStatus) (rest : List WaitOutcome) :
    (monitorProbingStatus id (WaitOutcome.timeout s :: rest)).head? =
      some ⟨statusErrorInterval, iterEvents id s⟩ ∧
    statusErrorInterval < statusMonitoringInterval :=
  ⟨rfl, by norm_num [statusErrorInterval, statusMonitoringInterval, timeSecond]⟩

/-- C4: the monitor loop exits exactly at stop-signal delivery.  First
conjunct: a stop outcome ends the run at once — everything after it (the
`post` trace) contributes no iteration, hence no log event and no metric
observation.  Second conjunct: without a stop outcome the loop never exits —
every wait produces an iteration.  The stop signal races the timer inside
each wait (`select` of lines 57-91), which the trace models outcome by
outcome. -/
theorem monitor_stop_only_exit :
    (∀ (id : String) (interval : Int) (pre post : List WaitOutcome),
        WaitOutcome.stop ∉ pre →
        monitorLoop id interval (pre ++ WaitOutcome.stop :: post) =
          monitorLoop id interval pre) ∧
    (∀ (id : String) (interval : Int) (tr : List WaitOutcome),
        WaitOutcome.stop ∉ tr →
        (monitorLoop id interval tr).length = tr.length) :=
  ⟨fun id interval pre post h => monitorLoop_append_stop id post pre interval h,
   fun id interval tr h => monitorLoop_length_of_no_stop id tr interval h⟩

/-- C4 witness: a concrete run with one healthy iteration, then a stop,
then a pending unhealthy outcome that is never observed. -/
theorem monitor_stop_only_exit_witness :
    monitorLoop "p1" statusErrorInterval
        ([WaitOutcome.timeout ⟨true, 0, none, 0⟩] ++ WaitOutcome.stop ::
          [WaitOutcome.timeout ⟨false, 0, some "e", 0⟩]) =
      monitorLoop "p1" statusErrorInterval [WaitOutcome.timeout ⟨true, 0, none, 0⟩] ∧
    (monitorLoop "p1" statusErrorInterval
        [WaitOutcome.timeout ⟨true, 0, none, 0⟩]).length = 1 :=
  ⟨monitor_stop_only_exit.1 "p1" statusErrorInterval _ _ (by decide),
   monitor_stop_only_exit.2 "p1" statusErrorInterval _ (by decide)⟩

/-- C5 counterexample: a concrete registration whose `p.Status` call fails.
The warning is logged for the peer and no monitor is spawned, but the
function — which declares no return values — hands no failure back to the
caller: `returnedErr` is `none`, refuting the claim's "returns a failure to
the caller". -/
theorem addPeer_failure_returns_nothing :
    (addPeerToProber "peer1" [] (some "unknown id")).returnedErr = none ∧
    (addPeerToProber "peer1" [] (some "unknown id")).spawned = false ∧
    (addPeerToProber "peer1" [] (some "unknown id")).warnLogs =
      [⟨"failed to add peer into prober", "peer1"⟩] :=
  ⟨rfl, rfl, rfl⟩

/-- C5 (amended): on every registration whose status-handle lookup fails,
the failure is logged as a warning attributed to the peer and no monitor
task is spawned; the registration call has no return value, so no failure
indication reaches the caller. -/
theorem addPeer_failure_no_spawn (id : String) (us : List String) (e : String) :
    (addPeerToProber id us (some e)).spawned = false ∧
    (addPeerToProber id us (some e)).warnLogs =
      [⟨"failed to add peer into prober", id⟩] ∧
    (addPeerToProber id us (some e)).returnedErr = none :=
  ⟨rfl, rfl, rfl⟩

/-- C6: at a healthy snapshot with a 10 ms smoothed RTT and a 2 s clock
difference, the emitted drift warning stores the smoothed RTT under the
`"clock-drift"` field and the clock difference under the `"rtt"` field —
the two labels are swapped relative to the quantities they name. -/
theorem driftWarn_fields_swapped :
    (iterEvents "p1" ⟨true, 10000000, none, 2 * timeSecond⟩).filter isDriftWarn =
      [Event.driftWarn "p1" 10000000 (2 * timeSecond) none] ∧
    (10000000 : Int) ≠ 2 * timeSecond := by
  constructor
  · rfl
  · decide

/-- C7: the URL list handed to `p.AddHTTP` has the same length as the base
address list, and position by position equals the base address with
`ProbingPrefix` appended. -/
theorem probeUrls_append_suffix (id : String) (us : List String)
    (se : Option String) (i : Nat) :
    (addPeerToProber id us se).probeUrls.length = us.length ∧
    (addPeerToProber id us se).probeUrls[i]? =
      us[i]?.map (fun u => u ++ ProbingPrefix) := by
  cases se <;> exact ⟨List.length_map _ _, List.getElem?_map _ us i⟩

/-- C8: every monitor iteration — healthy or not — emits exactly one RTT
metric observation, labeled with the peer id, whose value is the snapshot's
smoothed RTT converted to seconds. -/
theorem rtt_metric_every_iteration (id : String) (s : PeerStatus) :
    (iterEvents id s).filter isRttMetric =
      [Event.rttMetric id (durationSeconds s.srtt)] := by
  unfold iterEvents
  rcases Bool.eq_false_or_eq_true s.health with hb | hb <;>
    by_cases hc : s.clockDiff > timeSecond <;>
      simp [hb, hc, isRttMetric, List.filter_append]

/-- C9: the fixed probe sampling interval is strictly below the transport's
read timeout, the difference is at least one time unit, and it is the
interval handed to `p.AddHTTP` on every registration. -/
theorem proberInterval_below_read_timeout :
    proberInterval < ConnReadTimeout ∧
    timeSecond ≤ ConnReadTimeout - proberInterval ∧
    ∀ (id : String) (us : List String) (se : Option String),
      (addPeerToProber id us se).probeInterval = proberInterval := by
  refine ⟨by norm_num [proberInterval, ConnReadTimeout, timeSecond],
    by norm_num [proberInterval, ConnReadTimeout, timeSecond],
    fun id us se => ?_⟩
  cases se <;> rfl

/-- Outcome of `usingVaultPassword` (cmd/geth/passwords.go): either a call to
`utils.Fatalf`, which terminates the process (its message and formatting
arguments recorded), or a normal boolean return. -/
inductive UsingVaultResult where
  | fatal (msg : String) (args : List String)
  | ret (b : Bool)
  deriving DecidableEq

/-- The `Fatalf` message of passwords.go line 93. -/
def tooManyPasswordFlagsMsg : String :=
  "Too many password flags have been set.  Only one of the following should be supplied:"

/-- The `Fatalf` message of passwords.go line 110. -/
def missingVaultFlagsMsg : String :=
  "No account password specified, but missing flags required for retrieving password from Vault.  Please supply:"

/-- `setPassFlags` of `usingVaultPassword` (passwords.go lines 83-88): the
slice starts as `make([]string, 3)` — three empty strings — and the loop
over the three password flags appends each flag whose value is non-empty.
Go iterates the map in unspecified order; a fixed order is used here, which
only affects the order of the appended names, never the length the branch
conditions test.  The flag-name strings stand for the `Name` fields of the
`utils` flag definitions, which live outside the provided sources. -/
def setPassFlags (accountPass blockPass filePass : String) : List String :=
  (((List.replicate 3 "")
      ++ (if accountPass ≠ "" then ["VoteAccountPasswordFlag"] else []))
      ++ (if blockPass ≠ "" then ["VoteBlockMakerAccountPasswordFlag"] else []))
      ++ (if filePass ≠ "" then ["PasswordFileFlag"] else [])

/-- `missingFlags` of `usingVaultPassword` (passwords.go lines 103-108):
likewise seeded by `make([]string, 3)` and appended with each Vault flag
whose value is empty. -/
def missingVaultFlags (vaultAddr vaultPrefix vaultPasswordName vaultPasswordPath : String) : List String :=
  ((((List.replicate 3 "")
      ++ (if vaultAddr = "" then ["VaultAddrFlag"] else []))
      ++ (if vaultPrefix = "" then ["VaultPrefixFlag"] else []))
      ++ (if vaultPasswordName = "" then ["VaultPasswordNameFlag"] else []))
      ++ (if vaultPasswordPath = "" then ["VaultPasswordPathFlag"] else [])

/-- `usingVaultPassword` (passwords.go lines 77-114), on the seven flag
values it reads from the CLI context.  `utils.Fatalf` never returns, so the
`return false` after line 93 and the fall-through after line 110 are
unreachable and the fatal outcomes are terminal. -/
def usingVaultPassword (accountPass blockPass filePass vaultAddr vaultPrefix vaultPasswordName vaultPasswordPath : String) : UsingVaultResult :=
  if 0 < (setPassFlags accountPass blockPass filePass).length then
    if (setPassFlags accountPass blockPass filePass).length = 1 then
      UsingVaultResult.ret false
    else
      UsingVaultResult.fatal tooManyPasswordFlagsMsg
        (setPassFlags accountPass blockPass filePass)
  else
    if 0 < (missingVaultFlags vaultAddr vaultPrefix vaultPasswordName vaultPasswordPath).length then
      UsingVaultResult.fatal missingVaultFlagsMsg
        (missingVaultFlags vaultAddr vaultPrefix vaultPasswordName vaultPasswordPath)
    else
      UsingVaultResult.ret true

/-- Helper: `make([]string, 3)` seeds the list with three entries, so after
the appends it always has length at least 3. -/
theorem setPassFlags_length_ge (a b f : String) :
    3 ≤ (setPassFlags a b f).length := by
  unfold setPassFlags
  by_cases h1 : a ≠ "" <;> by_cases h2 : b ≠ "" <;> by_cases h3 : f ≠ "" <;>
    simp [h1, h2, h3]

/-- C10: whatever the flag configuration — none, one or several password
flags set, with or without the Vault flags — `usingVaultPassword` takes the
"Too many password flags have been set" `Fatalf` branch and never returns
normally: the set-flag list is created with `make([]string, 3)`, so its
length is at least 3, making `len > 0` always true and `len == 1` always
false; the Vault branch and both `ret` outcomes are unreachable. -/
theorem usingVaultPassword_always_fatal
    (accountPass blockPass filePass vaultAddr vaultPrefix vaultPasswordName vaultPasswordPath : String) :
    usingVaultPassword accountPass blockPass filePass vaultAddr vaultPrefix vaultPasswordName vaultPasswordPath =
      UsingVaultResult.fatal tooManyPasswordFlagsMsg
        (setPassFlags accountPass blockPass filePass) := by
  have h3 : 3 ≤ (setPassFlags accountPass blockPass filePass).length :=
    setPassFlags_length_ge accountPass blockPass filePass
  unfold usingVaultPassword
  rw [if_pos (by omega), if_neg (by omega)]
